import Mathlib

/-!
shell-factory: the channel abstraction and the FreeBSD amd64 syscall ABI.

Shallow embedding of `include/pico/channel.h` and
`include/target/freebsd/amd64/syscall_abi.h`.

Conventions of the embedding.

* Template parameters become ordinary arguments or type indices, and a
  `static_assert` becomes an `Except` result carrying the assertion message.
* Pointers are natural numbers (addresses); `size_t` and `uint16_t` values are natural
  numbers, reduced modulo the width where the source converts into the narrower type.
* The transports (`BiStream<Stream>`, the socket classes, `SocketServer`) are external to
  these sources.  The member `stm` is embedded as a recording transport: it remembers how it
  was initialised and the list of primitive calls made on it, with their arguments, in order.
* A method returning `*this` is a function from the receiver before the call to the receiver
  after the call.
-/

namespace Network

/-- The enumeration `Network::AddressType`. -/
inductive AddressType
  | IPV4
  | IPV6
  deriving DecidableEq, Repr

/-- A value of `Network::Address<T>`: the template argument `T` is kept as the field `family`. -/
structure Address where
  family : AddressType
  bytes : List Nat
  deriving DecidableEq, Repr

end Network

namespace Memory

/-- The view `Memory::Buffer`, observed through `pointer()` and `size()`. -/
structure Buffer where
  pointer : Nat
  size : Nat
  deriving DecidableEq, Repr

end Memory

namespace Pico

open Network

/-- The enumeration `channel_mode` (channel.h, lines 9-22). -/
inductive channel_mode
  | NO_CHANNEL
  | TCP_CONNECT
  | TCP_LISTEN
  | TCP6_CONNECT
  | TCP6_LISTEN
  | SCTP_CONNECT
  | SCTP_LISTEN
  | SCTP6_CONNECT
  | SCTP6_LISTEN
  | USE_STDOUT
  | USE_STDERR
  deriving DecidableEq, Repr

open channel_mode

/-- The types that occur as `stream_type` in the `DEFINE_CHANNEL_MODE` table. -/
inductive StreamType
  | void
  | BiStream_Stream
  | TcpSocket
  | Tcp6Socket
  | SctpSocket
  | Sctp6Socket
  deriving DecidableEq, Repr

/-- The typedef `ChannelMode<mode>::stream_type` (channel.h, lines 35-45). -/
def ChannelMode.stream_type : channel_mode → StreamType
  | NO_CHANNEL => StreamType.void
  | USE_STDOUT => StreamType.BiStream_Stream
  | USE_STDERR => StreamType.BiStream_Stream
  | TCP_CONNECT => StreamType.TcpSocket
  | TCP6_CONNECT => StreamType.Tcp6Socket
  | TCP_LISTEN => StreamType.TcpSocket
  | TCP6_LISTEN => StreamType.Tcp6Socket
  | SCTP_CONNECT => StreamType.SctpSocket
  | SCTP6_CONNECT => StreamType.Sctp6Socket
  | SCTP_LISTEN => StreamType.SctpSocket
  | SCTP6_LISTEN => StreamType.Sctp6Socket

/-- The constant `ChannelMode<mode>::dupable_to_stdio` (channel.h, lines 35-45). -/
def ChannelMode.dupable_to_stdio : channel_mode → Bool
  | NO_CHANNEL => false
  | USE_STDOUT => false
  | USE_STDERR => false
  | TCP_CONNECT => true
  | TCP6_CONNECT => true
  | TCP_LISTEN => true
  | TCP6_LISTEN => true
  | SCTP_CONNECT => true
  | SCTP6_CONNECT => true
  | SCTP_LISTEN => true
  | SCTP6_LISTEN => true

/-- Modelled from the spec: the class hierarchy below `Network::Socket` is not in the sources.
The spec names `TcpSocket`, `SctpSocket` and their IPv6 counterparts as the socket
implementations, so `std::is_base_of<Network::Socket, T>::value` holds for exactly those
four types; `void` and `BiStream<Stream>` are not socket types. -/
def is_base_of_Socket : StreamType → Bool
  | StreamType.TcpSocket => true
  | StreamType.Tcp6Socket => true
  | StreamType.SctpSocket => true
  | StreamType.Sctp6Socket => true
  | StreamType.void => false
  | StreamType.BiStream_Stream => false

/-- The three values returned by the static factories `Stream::standard_input()`,
`Stream::standard_output()` and `Stream::standard_error()`. -/
inductive Stream
  | standard_input
  | standard_output
  | standard_error
  deriving DecidableEq, Repr

/-- One primitive call made on the owned transport, with its arguments. -/
inductive Call
  | read (buf : Nat) (count : Nat)
  | write (buf : Nat) (count : Nat)
  | connect (addr : Address) (port : Nat)
  | duplicate (r : Stream) (w : Stream)
  deriving DecidableEq, Repr

/-- How the member `stm` was initialised: default-constructed, built from a pair of streams,
or built from the value of `SocketServer<socket>::start(addr, port, reuse_addr, fork_on_accept)`. -/
inductive Origin
  | default_constructed
  | pair (rx : Stream) (tx : Stream)
  | server_start (socket : StreamType) (addr : Address) (port : Nat)
      (reuse_addr : Bool) (fork_on_accept : Bool)
  deriving DecidableEq, Repr

/-- The recording transport standing for the member `stm`. -/
structure Transport where
  kind : StreamType
  origin : Origin
  calls : List Call
  deriving DecidableEq, Repr

/-- The transport primitive `read(buf, count)`: recorded. -/
def Transport.read (t : Transport) (buf count : Nat) : Transport :=
  { t with calls := t.calls ++ [Call.read buf count] }

/-- The transport primitive `write(buf, count)`: recorded. -/
def Transport.write (t : Transport) (buf count : Nat) : Transport :=
  { t with calls := t.calls ++ [Call.write buf count] }

/-- The transport primitive `connect(addr, port)`: recorded. -/
def Transport.connect (t : Transport) (addr : Address) (port : Nat) : Transport :=
  { t with calls := t.calls ++ [Call.connect addr port] }

/-- The transport primitive `duplicate(r, w)`: recorded. -/
def Transport.duplicate (t : Transport) (r w : Stream) : Transport :=
  { t with calls := t.calls ++ [Call.duplicate r w] }

/-- A default-constructed member of type `k`. -/
def Transport.default_constructed (k : StreamType) : Transport :=
  { kind := k, origin := Origin.default_constructed, calls := [] }

/-- A member of type `k` initialised as `stm(rx, tx)`. -/
def Transport.of_pair (k : StreamType) (rx tx : Stream) : Transport :=
  { kind := k, origin := Origin.pair rx tx, calls := [] }

/-- A member of type `k` initialised from the value of
`Network::SocketServer<socket>::start(addr, port, reuse_addr, fork_on_accept)`. -/
def Transport.of_server_start (k : StreamType) (socket : StreamType) (addr : Address)
    (port : Nat) (reuse_addr fork_on_accept : Bool) : Transport :=
  { kind := k, origin := Origin.server_start socket addr port reuse_addr fork_on_accept,
    calls := [] }

/-- The class template `Channel<M>` (channel.h, lines 47-85).  The member `stm` has the type
`ChannelMode<M>::stream_type`; the class-level `static_assert` is `Channel.static_assert_mode`
below, run by every constructor. -/
structure Channel (M : channel_mode) where
  stm : Transport
  deriving DecidableEq, Repr

/-- The method `Channel::recv(void *buf, size_t count)` (lines 58-61). -/
def Channel.recv {M : channel_mode} (c : Channel M) (buf count : Nat) : Channel M :=
  { c with stm := c.stm.read buf count }

/-- The method `Channel::recv(Memory::Buffer const& buffer)` (lines 63-65). -/
def Channel.recv_buffer {M : channel_mode} (c : Channel M) (buffer : Memory.Buffer) : Channel M :=
  c.recv buffer.pointer buffer.size

/-- The method `Channel::send(const void *buf, size_t count)` (lines 67-70). -/
def Channel.send {M : channel_mode} (c : Channel M) (buf count : Nat) : Channel M :=
  { c with stm := c.stm.write buf count }

/-- The method `Channel::send(Memory::Buffer const& buffer)` (lines 72-74). -/
def Channel.send_buffer {M : channel_mode} (c : Channel M) (buffer : Memory.Buffer) : Channel M :=
  c.send buffer.pointer buffer.size

/-- The method `Channel::dup_to_stdio()` (lines 76-84). -/
def Channel.dup_to_stdio {M : channel_mode} (c : Channel M) : Channel M :=
  if ChannelMode.dupable_to_stdio M then
    let std_in := Stream.standard_input
    let std_out := Stream.standard_output
    { c with stm := c.stm.duplicate std_in std_out }
  else
    c

/-- Why a use of the channel is refused by the build: a `static_assert` that fails, with its
message; a constructor that is declared in the primary template and defined nowhere for the
mode at hand; or a call that no declared function accepts. -/
inductive BuildError
  | static_assert (message : String)
  | no_definition
  | no_matching_function
  deriving DecidableEq, Repr

/-- The class-level `static_assert(M != NO_CHANNEL, ...)` (line 50), checked whenever
`Channel<M>` is instantiated. -/
def Channel.static_assert_mode (M : channel_mode) : Except BuildError Unit :=
  if M ≠ NO_CHANNEL then
    Except.ok ()
  else
    Except.error (BuildError.static_assert "Cannot instanciate channel: no mode specified")

/-- The global flags `Options::reuse_addr` and `Options::fork_on_accept`, declared outside
these sources and read by the `*_LISTEN` constructors. -/
structure Globals where
  reuse_addr : Bool
  fork_on_accept : Bool
  deriving DecidableEq, Repr

/-- The constructor `Channel<M>::Channel()`: declared for every mode (line 53), defined for
`USE_STDOUT` (lines 87-90) and `USE_STDERR` (lines 92-95) only. -/
def Channel.mk0 (M : channel_mode) : Except BuildError (Channel M) := do
  Channel.static_assert_mode M
  match M with
  | USE_STDOUT =>
      Except.ok ⟨Transport.of_pair (ChannelMode.stream_type USE_STDOUT)
        Stream.standard_input Stream.standard_output⟩
  | USE_STDERR =>
      Except.ok ⟨Transport.of_pair (ChannelMode.stream_type USE_STDERR)
        Stream.standard_input Stream.standard_error⟩
  | _ => Except.error BuildError.no_definition

/-- The constructor template `Channel<M>::Channel(Network::Address<T> addr, uint16_t port)`:
declared for every mode (lines 55-56), defined for the eight socket modes (lines 97-163).
The template argument `T` is `addr.family`. -/
def Channel.mk_addr_port (g : Globals) (M : channel_mode) (addr : Address) (port : Nat) :
    Except BuildError (Channel M) := do
  Channel.static_assert_mode M
  match M with
  | TCP_CONNECT =>
      if addr.family = AddressType.IPV4 then
        Except.ok ⟨(Transport.default_constructed (ChannelMode.stream_type TCP_CONNECT)).connect
          addr port⟩
      else Except.error (BuildError.static_assert "TCP_CONNECT requires an IPV4 address.")
  | TCP6_CONNECT =>
      if addr.family = AddressType.IPV6 then
        Except.ok ⟨(Transport.default_constructed (ChannelMode.stream_type TCP6_CONNECT)).connect
          addr port⟩
      else Except.error (BuildError.static_assert "TCP6_CONNECT requires an IPV6 address.")
  | TCP_LISTEN =>
      if addr.family = AddressType.IPV4 then
        Except.ok ⟨Transport.of_server_start (ChannelMode.stream_type TCP_LISTEN)
          StreamType.TcpSocket addr port g.reuse_addr g.fork_on_accept⟩
      else Except.error (BuildError.static_assert "TCP_LISTEN requires an IPV4 address.")
  | TCP6_LISTEN =>
      if addr.family = AddressType.IPV6 then
        Except.ok ⟨Transport.of_server_start (ChannelMode.stream_type TCP6_LISTEN)
          StreamType.Tcp6Socket addr port g.reuse_addr g.fork_on_accept⟩
      else Except.error (BuildError.static_assert "TCP6_LISTEN requires an IPV6 address.")
  | SCTP_CONNECT =>
      if addr.family = AddressType.IPV4 then
        Except.ok ⟨(Transport.default_constructed (ChannelMode.stream_type SCTP_CONNECT)).connect
          addr port⟩
      else Except.error (BuildError.static_assert "SCTP_CONNECT requires an IPV4 address.")
  | SCTP6_CONNECT =>
      if addr.family = AddressType.IPV6 then
        Except.ok ⟨(Transport.default_constructed (ChannelMode.stream_type SCTP6_CONNECT)).connect
          addr port⟩
      else Except.error (BuildError.static_assert "SCTP6_CONNECT requires an IPV6 address.")
  | SCTP_LISTEN =>
      if addr.family = AddressType.IPV4 then
        Except.ok ⟨Transport.of_server_start (ChannelMode.stream_type SCTP_LISTEN)
          StreamType.SctpSocket addr port g.reuse_addr g.fork_on_accept⟩
      else Except.error (BuildError.static_assert "SCTP_LISTEN requires an IPV4 address.")
  | SCTP6_LISTEN =>
      if addr.family = AddressType.IPV6 then
        Except.ok ⟨Transport.of_server_start (ChannelMode.stream_type SCTP6_LISTEN)
          StreamType.Sctp6Socket addr port g.reuse_addr g.fork_on_accept⟩
      else Except.error (BuildError.static_assert "SCTP6_LISTEN requires an IPV6 address.")
  | _ => Except.error BuildError.no_definition

/-- What compiling, without running, an expression checks: a failing `static_assert` refuses
the build, whereas a call to a constructor that is only declared compiles. -/
def compiles {α : Type} : Except BuildError α → Except BuildError Unit
  | Except.error (BuildError.static_assert m) => Except.error (BuildError.static_assert m)
  | Except.error BuildError.no_definition => Except.ok ()
  | Except.error BuildError.no_matching_function => Except.error BuildError.no_matching_function
  | Except.ok _ => Except.ok ()

end Pico

namespace Options

open Pico Network

/-- The build settings read by `Options::channel()`: each of `CHANNEL`, `HOST` and `PORT` is
either given to the build or left unset. -/
structure Defines where
  channel : Option channel_mode
  host : Option (List Nat)
  port : Option Nat
  deriving DecidableEq, Repr

/-- The setting `CHANNEL`, with its default (lines 171-173). -/
def CHANNEL (d : Defines) : channel_mode := d.channel.getD channel_mode.NO_CHANNEL

/-- The setting `HOST`, with its default (lines 179-181). -/
def HOST (d : Defines) : List Nat := d.host.getD [0, 0, 0, 0]

/-- The setting `PORT`, with its default (lines 187-189). -/
def PORT (d : Defines) : Nat := d.port.getD 0

/-- The factory `Options::channel()` (lines 191-204).  The helper
`Network::ip_address_from_bytes` is outside these sources and is a parameter.  The condition
is an ordinary `if` on a constant, so both arms are compiled and one of them runs. -/
def channel (ip_address_from_bytes : List Nat → Except BuildError Address) (g : Globals)
    (d : Defines) : Except BuildError (Channel (CHANNEL d)) := do
  let port := PORT d % 65536
  let address ← ip_address_from_bytes (HOST d)
  compiles (Channel.mk_addr_port g (CHANNEL d) address port)
  compiles (Channel.mk0 (CHANNEL d))
  if is_base_of_Socket (ChannelMode.stream_type (CHANNEL d)) then
    Channel.mk_addr_port g (CHANNEL d) address port
  else
    Channel.mk0 (CHANNEL d)

end Options

namespace Network

/-- Modelled from the spec: `Network::ip_address_from_bytes` is not in the sources.  The spec
gives the host as four bytes defining the bind/connect address and tags an address IPV4 or
IPV6; four bytes form an IPV4 address, sixteen bytes an IPV6 address, and no other number of
bytes is an address. -/
def ip_address_from_bytes (bytes : List Nat) : Except Pico.BuildError Address :=
  if bytes.length = 4 then Except.ok ⟨AddressType.IPV4, bytes⟩
  else if bytes.length = 16 then Except.ok ⟨AddressType.IPV6, bytes⟩
  else Except.error Pico.BuildError.no_matching_function

end Network

namespace Target

/-- The macro `SYSCALL_CLOBBERED_REGISTERS` (syscall_abi.h, line 20). -/
def SYSCALL_CLOBBERED_REGISTERS : List String := ["rcx", "r8", "r9", "r10", "r11"]

/-- The macro `SYSCALL_NUMBER_REGISTER` (line 21). -/
def SYSCALL_NUMBER_REGISTER : String := "rax"

/-- The macro `SYSCALL_RESULT_REGISTER` (line 22). -/
def SYSCALL_RESULT_REGISTER : String := "rax"

/-- The macro `SYSCALL_INSTRUCTION` (line 23). -/
def SYSCALL_INSTRUCTION : String := "syscall"

/-- The calling convention table of the header comment (lines 4-18), row by row. -/
def calling_convention : List (String × String) :=
  [("syscall number", "rax"), ("arg1", "rdi"), ("arg2", "rsi"), ("arg3", "rdx"),
   ("arg4", "r10"), ("arg5", "r8"), ("arg6", "r9"), ("return value", "rax")]

/-- What the text `SYSCALL_SET_ARG_i(value)` becomes: an application of the macro
`SYSCALL_ARG_BIND_REGISTER` (defined outside this header, kept uninterpreted), a
`static_assert(false, message)`, or, when the header defines no macro of that name, the text
itself, which is then a call to an undeclared function. -/
inductive Expansion (V : Type)
  | SYSCALL_ARG_BIND_REGISTER (argno : Nat) (register : String) (value : V)
  | static_assert_false (message : String)
  | undeclared (name : String)
  deriving DecidableEq, Repr

/-- The macros `SYSCALL_SET_ARG_1` to `SYSCALL_SET_ARG_7` (lines 25-31); the header defines
no `SYSCALL_SET_ARG_i` for any other index. -/
def SYSCALL_SET_ARG {V : Type} (i : Nat) (value : V) : Expansion V :=
  match i with
  | 1 => Expansion.SYSCALL_ARG_BIND_REGISTER 1 "rdi" value
  | 2 => Expansion.SYSCALL_ARG_BIND_REGISTER 2 "rsi" value
  | 3 => Expansion.SYSCALL_ARG_BIND_REGISTER 3 "rdx" value
  | 4 => Expansion.SYSCALL_ARG_BIND_REGISTER 4 "r10" value
  | 5 => Expansion.SYSCALL_ARG_BIND_REGISTER 5 "r8" value
  | 6 => Expansion.SYSCALL_ARG_BIND_REGISTER 6 "r9" value
  | 7 => Expansion.static_assert_false "Too many arguments for this architecture."
  | n => Expansion.undeclared ("SYSCALL_SET_ARG_" ++ toString n)

/-- Whether the expanded text is accepted by the compiler: a register binding is, a
`static_assert(false, ...)` is not, and neither is a call to an undeclared function. -/
def Expansion.builds {V : Type} : Expansion V → Bool
  | Expansion.SYSCALL_ARG_BIND_REGISTER _ _ _ => true
  | Expansion.static_assert_false _ => false
  | Expansion.undeclared _ => false

/-- The instructions that occur in the assembly template of `SYSCALL_HANDLE_ERROR`. -/
inductive Instr
  | jnc (label : String)
  | mov_to_rdi (value : Nat)
  | callq (symbol : String)
  | label (name : String)
  deriving DecidableEq, Repr

/-- The part of the processor state the guard reads and writes, together with the record of
the calls made: each entry is the callee and the content of `rdi`, the first-argument
register, at the time of the call. -/
structure Cpu where
  carry : Bool
  rdi : Nat
  calls : List (String × Nat)
  deriving DecidableEq, Repr

/-- Execution of an assembly block.  The first argument is `some l` while a taken forward
jump is looking for the label `l`.  `jnc` jumps when the carry flag is clear; `callq` calls
an external routine, which returns to the next instruction.  The result is `none` when a
jump target is missing from the block, and the state at the end of the block otherwise. -/
def exec : Option String → List Instr → Cpu → Option Cpu
  | none, [], s => some s
  | some _, [], _ => none
  | some l, Instr.label n :: rest, s =>
      if n = l then exec none rest s else exec (some l) rest s
  | some l, _ :: rest, s => exec (some l) rest s
  | none, Instr.jnc l :: rest, s =>
      if s.carry then exec none rest s else exec (some l) rest s
  | none, Instr.mov_to_rdi v :: rest, s => exec none rest { s with rdi := v }
  | none, Instr.callq f :: rest, s => exec none rest { s with calls := s.calls ++ [(f, s.rdi)] }
  | none, Instr.label _ :: rest, s => exec none rest s

/-- The assembly template of `SYSCALL_HANDLE_ERROR(result)` (lines 38-45), with the operand
`%0` standing for the register that holds `result` and `%P[set_error]` for the address of
`Target::set_error`. -/
def handle_error_asm (result : Nat) : List Instr :=
  [Instr.jnc "1", Instr.mov_to_rdi result, Instr.callq "Target::set_error", Instr.label "1"]

/-- The condition `!defined(NO_ERROR_CHECKS) || (NO_ERROR_CHECKS == 0)` (line 36).  The
setting is `none` when `NO_ERROR_CHECKS` is not defined and `some v` when it is defined and
has the integer value `v` in the `#if`; in the first case the name counts as 0 there. -/
def error_checks_enabled (NO_ERROR_CHECKS : Option Int) : Bool :=
  match NO_ERROR_CHECKS with
  | none => !false || ((0 : Int) == 0)
  | some v => !true || (v == 0)

/-- The macro `SYSCALL_HANDLE_ERROR(result)` as this header defines it (lines 36-47): the
assembly block when the condition of the `#if` holds, and no definition otherwise. -/
def SYSCALL_HANDLE_ERROR (NO_ERROR_CHECKS : Option Int) (result : Nat) : Option (List Instr) :=
  if error_checks_enabled NO_ERROR_CHECKS then some (handle_error_asm result) else none

/-- The calls made by what the header emits for the guard after a syscall that left the carry
flag `carry`: the calls of the assembly block when the guard is defined, and no call when it
is compiled out.  The result is `none` when the block does not run to its end. -/
def guard_calls (NO_ERROR_CHECKS : Option Int) (carry : Bool) (result rdi : Nat) :
    Option (List (String × Nat)) :=
  match SYSCALL_HANDLE_ERROR NO_ERROR_CHECKS result with
  | none => some []
  | some code => (exec none code { carry := carry, rdi := rdi, calls := [] }).map Cpu.calls

end Target

/-! ## Channel: delegation to the owned transport -/

section ChannelTheorems

open Pico Pico.channel_mode Network

/-- C1: `send(buf, n)` makes exactly one `write` call on the owned transport, with the same
pointer and length, and `recv(buf, n)` exactly one `read` call, likewise; each returns the
receiving channel, whose transport is otherwise unchanged.  Hence `c.send(a).send(b)` issues
the write for `a`, then the write for `b`, and nothing else. -/
theorem channel_send_recv_delegate (M : channel_mode) (c : Channel M)
    (buf n a na b nb : Nat) :
    c.send buf n = ⟨{ c.stm with calls := c.stm.calls ++ [Call.write buf n] }⟩ ∧
    c.recv buf n = ⟨{ c.stm with calls := c.stm.calls ++ [Call.read buf n] }⟩ ∧
    (c.send a na).send b nb =
      ⟨{ c.stm with calls := c.stm.calls ++ [Call.write a na, Call.write b nb] }⟩ := by
  refine ⟨rfl, rfl, ?_⟩
  simp [Channel.send, Transport.write]

/-- C2: the buffer-view overloads of `send` and `recv` have the same effect on the transport
and the same result as the pointer+length overloads at the pointer and size of the view:
one `write` (one `read`) call with that pointer and that size. -/
theorem channel_buffer_overloads (M : channel_mode) (c : Channel M) (b : Memory.Buffer) :
    c.send_buffer b = c.send b.pointer b.size ∧
    c.recv_buffer b = c.recv b.pointer b.size ∧
    (c.send_buffer b).stm.calls = c.stm.calls ++ [Call.write b.pointer b.size] ∧
    (c.recv_buffer b).stm.calls = c.stm.calls ++ [Call.read b.pointer b.size] :=
  ⟨rfl, rfl, rfl, rfl⟩

/-- C3: `dup_to_stdio` is total and does one of two things.  In the eight socket modes the
flag `dupable_to_stdio` is true and the call makes exactly one `duplicate` call on the
transport, with (standard input, standard output); in `USE_STDOUT` and `USE_STDERR` the flag
is false and the channel is left as it was.  In every mode the flag is true exactly when the
transport type is a socket type. -/
theorem channel_dup_to_stdio (M : channel_mode) (c : Channel M) :
    (ChannelMode.dupable_to_stdio M = is_base_of_Socket (ChannelMode.stream_type M)) ∧
    (M ∈ [TCP_CONNECT, TCP_LISTEN, TCP6_CONNECT, TCP6_LISTEN,
          SCTP_CONNECT, SCTP_LISTEN, SCTP6_CONNECT, SCTP6_LISTEN] →
      ChannelMode.dupable_to_stdio M = true ∧
      Channel.dup_to_stdio c = ⟨{ c.stm with calls := c.stm.calls ++
        [Call.duplicate Stream.standard_input Stream.standard_output] }⟩) ∧
    (M ∈ [USE_STDOUT, USE_STDERR] →
      ChannelMode.dupable_to_stdio M = false ∧ Channel.dup_to_stdio c = c) := by
  refine ⟨?_, ?_, ?_⟩
  · cases M <;> rfl
  · intro h
    cases M <;> simp at h <;> exact ⟨rfl, rfl⟩
  · intro h
    cases M <;> simp at h <;> exact ⟨rfl, rfl⟩

/-- C3 at a `TCP_LISTEN` channel that has already written once, and at a `USE_STDERR`
channel. -/
theorem channel_dup_to_stdio_witness :
    Channel.dup_to_stdio
        (⟨⟨StreamType.TcpSocket, Origin.default_constructed, [Call.write 4096 8]⟩⟩ :
          Channel TCP_LISTEN) =
      ⟨⟨StreamType.TcpSocket, Origin.default_constructed,
        [Call.write 4096 8, Call.duplicate Stream.standard_input Stream.standard_output]⟩⟩ ∧
    Channel.dup_to_stdio
        (⟨⟨StreamType.BiStream_Stream,
          Origin.pair Stream.standard_input Stream.standard_error, []⟩⟩ :
          Channel USE_STDERR) =
      ⟨⟨StreamType.BiStream_Stream,
        Origin.pair Stream.standard_input Stream.standard_error, []⟩⟩ :=
  ⟨((channel_dup_to_stdio TCP_LISTEN _).2.1 (by decide)).2,
   ((channel_dup_to_stdio USE_STDERR _).2.2 (by decide)).2⟩

end ChannelTheorems

section ConstructionTheorems

open Pico Pico.channel_mode Network Options

/-- The factory runs the constructor of the arm selected by the transport type, once the host
has been parsed: the checks on the arm that is not taken never refuse the build on their own. -/
theorem Options.channel_eq_selected_arm (parse : List Nat → Except BuildError Address)
    (g : Globals) (d : Defines) (addr : Address) (hparse : parse (HOST d) = Except.ok addr) :
    channel parse g d =
      if is_base_of_Socket (ChannelMode.stream_type (CHANNEL d)) then
        Channel.mk_addr_port g (CHANNEL d) addr (PORT d % 65536)
      else Channel.mk0 (CHANNEL d) := by
  obtain ⟨ch, host, port⟩ := d
  obtain ⟨fam, bytes⟩ := addr
  unfold channel
  rw [hparse]
  cases ch with
  | none => rfl
  | some M => cases M <;> cases fam <;> rfl

/-- The (address, port) constructor of an IPv4 socket mode is accepted exactly for an IPV4
address. -/
theorem Pico.Channel.mk_addr_port_isOk_v4 (g : Globals) (M : channel_mode) (addr : Address)
    (port : Nat) (hM : M ∈ [TCP_CONNECT, TCP_LISTEN, SCTP_CONNECT, SCTP_LISTEN]) :
    (Channel.mk_addr_port g M addr port).isOk = true ↔ addr.family = AddressType.IPV4 := by
  obtain ⟨fam, bytes⟩ := addr
  cases M <;> simp at hM <;> cases fam <;>
    first
    | exact ⟨fun _ => rfl, fun _ => rfl⟩
    | exact ⟨fun h => Bool.noConfusion (show false = true from h), fun h => by cases h⟩

/-- The (address, port) constructor of an IPv6 socket mode is accepted exactly for an IPV6
address. -/
theorem Pico.Channel.mk_addr_port_isOk_v6 (g : Globals) (M : channel_mode) (addr : Address)
    (port : Nat) (hM : M ∈ [TCP6_CONNECT, TCP6_LISTEN, SCTP6_CONNECT, SCTP6_LISTEN]) :
    (Channel.mk_addr_port g M addr port).isOk = true ↔ addr.family = AddressType.IPV6 := by
  obtain ⟨fam, bytes⟩ := addr
  cases M <;> simp at hM <;> cases fam <;>
    first
    | exact ⟨fun _ => rfl, fun _ => rfl⟩
    | exact ⟨fun h => Bool.noConfusion (show false = true from h), fun h => by cases h⟩

/-- C4: building a channel for `NO_CHANNEL` is always refused.  Either constructor of
`Channel<NO_CHANNEL>` fails with the message that no mode is specified; the factory fails to
build whenever `CHANNEL` is left unset, whatever `HOST` and `PORT` are, and with that very
message once the host has been parsed; and for every other mode the check on `NO_CHANNEL`
passes. -/
theorem no_channel_rejected :
    Channel.mk0 NO_CHANNEL =
      Except.error (BuildError.static_assert "Cannot instanciate channel: no mode specified") ∧
    (∀ (g : Globals) (addr : Address) (port : Nat),
      Channel.mk_addr_port g NO_CHANNEL addr port =
        Except.error
          (BuildError.static_assert "Cannot instanciate channel: no mode specified")) ∧
    (∀ (parse : List Nat → Except BuildError Address) (g : Globals)
        (host : Option (List Nat)) (port : Option Nat),
      (channel parse g ⟨none, host, port⟩).isOk = false ∧
      ((parse (HOST ⟨none, host, port⟩)).isOk = true →
        channel parse g ⟨none, host, port⟩ =
          Except.error
            (BuildError.static_assert "Cannot instanciate channel: no mode specified"))) ∧
    (∀ M : channel_mode, M ≠ NO_CHANNEL → Channel.static_assert_mode M = Except.ok ()) := by
  refine ⟨rfl, fun _ _ _ => rfl, ?_, ?_⟩
  · intro parse g host port
    have key : ∀ r : Except BuildError Address,
        (do
          let address ← r
          compiles (Channel.mk_addr_port g NO_CHANNEL address
            (PORT ⟨none, host, port⟩ % 65536))
          compiles (Channel.mk0 NO_CHANNEL)
          (Channel.mk0 NO_CHANNEL : Except BuildError (Channel NO_CHANNEL))).isOk = false ∧
        (r.isOk = true →
          (do
            let address ← r
            compiles (Channel.mk_addr_port g NO_CHANNEL address
              (PORT ⟨none, host, port⟩ % 65536))
            compiles (Channel.mk0 NO_CHANNEL)
            (Channel.mk0 NO_CHANNEL : Except BuildError (Channel NO_CHANNEL))) =
          Except.error
            (BuildError.static_assert "Cannot instanciate channel: no mode specified")) := by
      intro r
      cases r with
      | error e => exact ⟨rfl, fun h => by cases h⟩
      | ok a => exact ⟨rfl, fun _ => rfl⟩
    exact key (parse (HOST ⟨none, host, port⟩))
  · intro M hM
    cases M <;> first | exact absurd rfl hM | rfl

/-- C4 at the mode `USE_STDOUT`: the check on `NO_CHANNEL` passes. -/
theorem no_channel_rejected_witness :
    Channel.static_assert_mode USE_STDOUT = Except.ok () :=
  no_channel_rejected.2.2.2 USE_STDOUT (by decide)

/-- C5: for every socket mode and every address family, the (address, port) constructor is
accepted at build time exactly when the family matches the mode: IPV4 for `TCP_CONNECT`,
`TCP_LISTEN`, `SCTP_CONNECT`, `SCTP_LISTEN`, and IPV6 for the four `*6` modes.  An IPV6
address given to `TCP_CONNECT` or `SCTP_CONNECT`, and an IPV4 address given to `TCP6_CONNECT`
or `SCTP6_CONNECT`, fail the `static_assert` of the constructor. -/
theorem channel_address_family (g : Globals) (addr : Address) (port : Nat) :
    (∀ M ∈ [TCP_CONNECT, TCP_LISTEN, SCTP_CONNECT, SCTP_LISTEN],
      ((Channel.mk_addr_port g M addr port).isOk = true ↔
        addr.family = AddressType.IPV4)) ∧
    (∀ M ∈ [TCP6_CONNECT, TCP6_LISTEN, SCTP6_CONNECT, SCTP6_LISTEN],
      ((Channel.mk_addr_port g M addr port).isOk = true ↔
        addr.family = AddressType.IPV6)) ∧
    (addr.family = AddressType.IPV6 →
      Channel.mk_addr_port g TCP_CONNECT addr port =
        Except.error (BuildError.static_assert "TCP_CONNECT requires an IPV4 address.") ∧
      Channel.mk_addr_port g SCTP_CONNECT addr port =
        Except.error (BuildError.static_assert "SCTP_CONNECT requires an IPV4 address.")) ∧
    (addr.family = AddressType.IPV4 →
      Channel.mk_addr_port g TCP6_CONNECT addr port =
        Except.error (BuildError.static_assert "TCP6_CONNECT requires an IPV6 address.") ∧
      Channel.mk_addr_port g SCTP6_CONNECT addr port =
        Except.error (BuildError.static_assert "SCTP6_CONNECT requires an IPV6 address.")) := by
  refine ⟨fun M hM => Channel.mk_addr_port_isOk_v4 g M addr port hM,
    fun M hM => Channel.mk_addr_port_isOk_v6 g M addr port hM, ?_, ?_⟩
  · obtain ⟨fam, bytes⟩ := addr
    intro h
    cases fam
    · cases h
    · exact ⟨rfl, rfl⟩
  · obtain ⟨fam, bytes⟩ := addr
    intro h
    cases fam
    · exact ⟨rfl, rfl⟩
    · cases h

/-- C5 at the address 127.0.0.1 and port 4444: `SCTP_LISTEN` accepts it, `TCP6_LISTEN`
refuses it, and `TCP6_CONNECT` refuses it with its message. -/
theorem channel_address_family_witness :
    (Channel.mk_addr_port ⟨true, false⟩ SCTP_LISTEN
        ⟨AddressType.IPV4, [127, 0, 0, 1]⟩ 4444).isOk = true ∧
    ¬ (Channel.mk_addr_port ⟨true, false⟩ TCP6_LISTEN
        ⟨AddressType.IPV4, [127, 0, 0, 1]⟩ 4444).isOk = true ∧
    Channel.mk_addr_port ⟨true, false⟩ TCP6_CONNECT ⟨AddressType.IPV4, [127, 0, 0, 1]⟩ 4444 =
      Except.error (BuildError.static_assert "TCP6_CONNECT requires an IPV6 address.") :=
  ⟨((channel_address_family ⟨true, false⟩ ⟨AddressType.IPV4, [127, 0, 0, 1]⟩ 4444).1
      SCTP_LISTEN (by decide)).2 rfl,
   fun h => AddressType.noConfusion
     (((channel_address_family ⟨true, false⟩ ⟨AddressType.IPV4, [127, 0, 0, 1]⟩ 4444).2.1
        TCP6_LISTEN (by decide)).1 h),
   ((channel_address_family ⟨true, false⟩ ⟨AddressType.IPV4, [127, 0, 0, 1]⟩ 4444).2.2.2
      rfl).1⟩

/-- C6: construction follows the per-mode table.  `Channel<USE_STDOUT>()` wraps (standard
input, standard output) and `Channel<USE_STDERR>()` wraps (standard input, standard error);
the (address, port) constructor of a `*_CONNECT` mode makes exactly one `connect` call on the
default-constructed transport, with that address and port; the one of a `*_LISTEN` mode
initialises the transport from one `SocketServer::start` on the socket type of the mode, with
that address and port and the global flags `reuse_addr` and `fork_on_accept`. -/
theorem channel_construction (g : Globals) (addr : Address) (port : Nat) :
    Channel.mk0 USE_STDOUT =
      Except.ok ⟨⟨StreamType.BiStream_Stream,
        Origin.pair Stream.standard_input Stream.standard_output, []⟩⟩ ∧
    Channel.mk0 USE_STDERR =
      Except.ok ⟨⟨StreamType.BiStream_Stream,
        Origin.pair Stream.standard_input Stream.standard_error, []⟩⟩ ∧
    (addr.family = AddressType.IPV4 →
      Channel.mk_addr_port g TCP_CONNECT addr port =
        Except.ok ⟨⟨StreamType.TcpSocket, Origin.default_constructed,
          [Call.connect addr port]⟩⟩ ∧
      Channel.mk_addr_port g SCTP_CONNECT addr port =
        Except.ok ⟨⟨StreamType.SctpSocket, Origin.default_constructed,
          [Call.connect addr port]⟩⟩ ∧
      Channel.mk_addr_port g TCP_LISTEN addr port =
        Except.ok ⟨⟨StreamType.TcpSocket,
          Origin.server_start StreamType.TcpSocket addr port g.reuse_addr g.fork_on_accept,
          []⟩⟩ ∧
      Channel.mk_addr_port g SCTP_LISTEN addr port =
        Except.ok ⟨⟨StreamType.SctpSocket,
          Origin.server_start StreamType.SctpSocket addr port g.reuse_addr g.fork_on_accept,
          []⟩⟩) ∧
    (addr.family = AddressType.IPV6 →
      Channel.mk_addr_port g TCP6_CONNECT addr port =
        Except.ok ⟨⟨StreamType.Tcp6Socket, Origin.default_constructed,
          [Call.connect addr port]⟩⟩ ∧
      Channel.mk_addr_port g SCTP6_CONNECT addr port =
        Except.ok ⟨⟨StreamType.Sctp6Socket, Origin.default_constructed,
          [Call.connect addr port]⟩⟩ ∧
      Channel.mk_addr_port g TCP6_LISTEN addr port =
        Except.ok ⟨⟨StreamType.Tcp6Socket,
          Origin.server_start StreamType.Tcp6Socket addr port g.reuse_addr g.fork_on_accept,
          []⟩⟩ ∧
      Channel.mk_addr_port g SCTP6_LISTEN addr port =
        Except.ok ⟨⟨StreamType.Sctp6Socket,
          Origin.server_start StreamType.Sctp6Socket addr port g.reuse_addr g.fork_on_accept,
          []⟩⟩) := by
  refine ⟨rfl, rfl, ?_, ?_⟩
  · obtain ⟨fam, bytes⟩ := addr
    intro h
    cases fam
    · exact ⟨rfl, rfl, rfl, rfl⟩
    · cases h
  · obtain ⟨fam, bytes⟩ := addr
    intro h
    cases fam
    · cases h
    · exact ⟨rfl, rfl, rfl, rfl⟩

/-- C6 at the address 10.0.0.2, port 8080, with `reuse_addr` set and `fork_on_accept` clear:
the `TCP_LISTEN` channel. -/
theorem channel_construction_witness :
    Channel.mk_addr_port ⟨true, false⟩ TCP_LISTEN ⟨AddressType.IPV4, [10, 0, 0, 2]⟩ 8080 =
      Except.ok ⟨⟨StreamType.TcpSocket,
        Origin.server_start StreamType.TcpSocket ⟨AddressType.IPV4, [10, 0, 0, 2]⟩ 8080
          true false, []⟩⟩ :=
  ((channel_construction ⟨true, false⟩ ⟨AddressType.IPV4, [10, 0, 0, 2]⟩ 8080).2.2.1
    rfl).2.2.1

/-- C7, as stated, fails: with the default four-byte host 0,0,0,0 and the default port 0 the
factory for `TCP6_CONNECT` is refused by the `static_assert` of the constructor, because four
bytes parse into an IPV4 address.  Were the four bytes parsed into an IPV6 address instead,
the factory for `TCP_CONNECT` would be refused in the same way. -/
theorem factory_four_byte_host_counterexample :
    channel Network.ip_address_from_bytes ⟨false, false⟩
        ⟨some TCP6_CONNECT, some [0, 0, 0, 0], some 0⟩ =
      Except.error (BuildError.static_assert "TCP6_CONNECT requires an IPV6 address.") ∧
    channel Network.ip_address_from_bytes ⟨false, false⟩ ⟨some TCP6_CONNECT, none, none⟩ =
      Except.error (BuildError.static_assert "TCP6_CONNECT requires an IPV6 address.") ∧
    channel (fun bytes => Except.ok ⟨AddressType.IPV6, bytes⟩) ⟨false, false⟩
        ⟨some TCP_CONNECT, some [0, 0, 0, 0], some 0⟩ =
      Except.error (BuildError.static_assert "TCP_CONNECT requires an IPV4 address.") :=
  ⟨rfl, rfl, rfl⟩

/-- C7, amended: for every configured mode other than `NO_CHANNEL`, every host that parses
into an address and every 16-bit port, the factory does what the selected constructor does.
When the transport type of the mode is a socket type its result is that of the
(address, port) constructor at the parsed address and the configured port, which is a
constructed channel exactly when the family of the address matches the mode; otherwise its
result is the channel built by the no-argument constructor, whatever host and port are. -/
theorem factory_channel (parse : List Nat → Except BuildError Address) (g : Globals)
    (d : Defines) (addr : Address)
    (hmode : CHANNEL d ≠ NO_CHANNEL) (hport : PORT d < 65536)
    (hparse : parse (HOST d) = Except.ok addr) :
    (is_base_of_Socket (ChannelMode.stream_type (CHANNEL d)) = true →
      channel parse g d = Channel.mk_addr_port g (CHANNEL d) addr (PORT d)) ∧
    (CHANNEL d ∈ [TCP_CONNECT, TCP_LISTEN, SCTP_CONNECT, SCTP_LISTEN] →
      ((channel parse g d).isOk = true ↔ addr.family = AddressType.IPV4)) ∧
    (CHANNEL d ∈ [TCP6_CONNECT, TCP6_LISTEN, SCTP6_CONNECT, SCTP6_LISTEN] →
      ((channel parse g d).isOk = true ↔ addr.family = AddressType.IPV6)) ∧
    (is_base_of_Socket (ChannelMode.stream_type (CHANNEL d)) = false →
      channel parse g d = Channel.mk0 (CHANNEL d) ∧ (channel parse g d).isOk = true) := by
  have harm := Options.channel_eq_selected_arm parse g d addr hparse
  rw [Nat.mod_eq_of_lt hport] at harm
  refine ⟨?_, ?_, ?_, ?_⟩
  · intro hs
    rw [harm, if_pos hs]
  · intro hM
    have hs : is_base_of_Socket (ChannelMode.stream_type (CHANNEL d)) = true := by
      generalize CHANNEL d = M at hM
      cases M <;> simp at hM <;> rfl
    rw [harm, if_pos hs]
    exact Channel.mk_addr_port_isOk_v4 g (CHANNEL d) addr (PORT d) hM
  · intro hM
    have hs : is_base_of_Socket (ChannelMode.stream_type (CHANNEL d)) = true := by
      generalize CHANNEL d = M at hM
      cases M <;> simp at hM <;> rfl
    rw [harm, if_pos hs]
    exact Channel.mk_addr_port_isOk_v6 g (CHANNEL d) addr (PORT d) hM
  · intro hs
    have hne : ¬ is_base_of_Socket (ChannelMode.stream_type (CHANNEL d)) = true := by
      rw [hs]; exact Bool.false_ne_true
    rw [harm, if_neg hne]
    refine ⟨rfl, ?_⟩
    generalize CHANNEL d = M at hmode hs
    cases M <;> first | exact absurd rfl hmode | rfl | cases hs

/-- C7, amended, at three settings with the default host 0,0,0,0: `TCP_LISTEN` on port 4444
starts a server on the parsed IPV4 address; `USE_STDERR` wraps the standard streams; and
`SCTP6_CONNECT` is accepted only for an IPV6 address, which the four bytes are not. -/
theorem factory_channel_witness :
    channel Network.ip_address_from_bytes ⟨true, true⟩ ⟨some TCP_LISTEN, none, some 4444⟩ =
      Channel.mk_addr_port ⟨true, true⟩ TCP_LISTEN ⟨AddressType.IPV4, [0, 0, 0, 0]⟩ 4444 ∧
    (channel Network.ip_address_from_bytes ⟨true, true⟩
        ⟨some USE_STDERR, none, none⟩).isOk = true ∧
    ((channel Network.ip_address_from_bytes ⟨true, true⟩
        ⟨some SCTP6_CONNECT, none, none⟩).isOk = true ↔
      AddressType.IPV4 = AddressType.IPV6) :=
  ⟨(factory_channel Network.ip_address_from_bytes ⟨true, true⟩
      ⟨some TCP_LISTEN, none, some 4444⟩ ⟨AddressType.IPV4, [0, 0, 0, 0]⟩
      (by decide) (by decide) rfl).1 rfl,
   ((factory_channel Network.ip_address_from_bytes ⟨true, true⟩
      ⟨some USE_STDERR, none, none⟩ ⟨AddressType.IPV4, [0, 0, 0, 0]⟩
      (by decide) (by decide) rfl).2.2.2 rfl).2,
   (factory_channel Network.ip_address_from_bytes ⟨true, true⟩
      ⟨some SCTP6_CONNECT, none, none⟩ ⟨AddressType.IPV4, [0, 0, 0, 0]⟩
      (by decide) (by decide) rfl).2.2.1 (by decide)⟩

end ConstructionTheorems

/-! ## Syscall ABI: argument binding and the error guard -/

section SyscallTheorems

open Target

/-- C8: for i = 1..6, `SYSCALL_SET_ARG_i(value)` binds `value`, as argument i, to the i-th
register of rdi, rsi, rdx, r10, r8, r9, which are the registers of the rows arg1..arg6 of the
convention table in the header; the syscall number register and the result register are both
rax, as in the table; the trap instruction is the single instruction `syscall`; and binding an
argument of any index above 6 does not build: the 7th fails the `static_assert` of the
header, and from the 8th on the header has no macro to expand. -/
theorem syscall_argument_binding (V : Type) (value : V) :
    [1, 2, 3, 4, 5, 6].map (fun i => SYSCALL_SET_ARG i value) =
      [Expansion.SYSCALL_ARG_BIND_REGISTER 1 "rdi" value,
       Expansion.SYSCALL_ARG_BIND_REGISTER 2 "rsi" value,
       Expansion.SYSCALL_ARG_BIND_REGISTER 3 "rdx" value,
       Expansion.SYSCALL_ARG_BIND_REGISTER 4 "r10" value,
       Expansion.SYSCALL_ARG_BIND_REGISTER 5 "r8" value,
       Expansion.SYSCALL_ARG_BIND_REGISTER 6 "r9" value] ∧
    calling_convention =
      [("syscall number", SYSCALL_NUMBER_REGISTER), ("arg1", "rdi"), ("arg2", "rsi"),
       ("arg3", "rdx"), ("arg4", "r10"), ("arg5", "r8"), ("arg6", "r9"),
       ("return value", SYSCALL_RESULT_REGISTER)] ∧
    SYSCALL_NUMBER_REGISTER = "rax" ∧
    SYSCALL_RESULT_REGISTER = "rax" ∧
    SYSCALL_INSTRUCTION = "syscall" ∧
    SYSCALL_SET_ARG 7 value =
      Expansion.static_assert_false "Too many arguments for this architecture." ∧
    (∀ k : Nat, (SYSCALL_SET_ARG (k + 7) value).builds = false) := by
  refine ⟨rfl, rfl, rfl, rfl, rfl, rfl, ?_⟩
  intro k
  cases k with
  | zero => rfl
  | succ n => rfl

/-- C9: with error checking enabled, the guard `SYSCALL_HANDLE_ERROR(result)` runs to its end
for every outcome of the syscall.  When the carry flag is set it calls `Target::set_error`
exactly once, with the raw result in the first-argument register; when the carry flag is
clear it calls nothing and changes nothing. -/
theorem syscall_handle_error (result rdi : Nat) (prior : List (String × Nat)) :
    SYSCALL_HANDLE_ERROR none result = some (handle_error_asm result) ∧
    exec none (handle_error_asm result) ⟨true, rdi, prior⟩ =
      some ⟨true, result, prior ++ [("Target::set_error", result)]⟩ ∧
    exec none (handle_error_asm result) ⟨false, rdi, prior⟩ = some ⟨false, rdi, prior⟩ ∧
    (∀ carry : Bool, guard_calls none carry result rdi =
      some (if carry then [("Target::set_error", result)] else [])) := by
  refine ⟨rfl, rfl, rfl, ?_⟩
  intro carry
  cases carry <;> rfl

/-- C10, as stated, fails: with `NO_ERROR_CHECKS` present and defined to 0 the guard is
emitted, and a syscall that sets the carry flag calls `Target::set_error`. -/
theorem no_error_checks_zero_counterexample :
    SYSCALL_HANDLE_ERROR (some 0) 13 = some (handle_error_asm 13) ∧
    guard_calls (some 0) true 13 0 = some [("Target::set_error", 13)] :=
  ⟨rfl, rfl⟩

/-- C10, amended: the guard is emitted exactly when `NO_ERROR_CHECKS` is absent or has the
value 0; whenever it is defined to a value other than 0 the guard is compiled out, and no call
to the error-recording routine is made whatever the outcome of the syscall. -/
theorem error_checks_toggle (flag : Option Int) (result : Nat) :
    ((SYSCALL_HANDLE_ERROR flag result).isSome = true ↔ flag = none ∨ flag = some 0) ∧
    (∀ v : Int, flag = some v → v ≠ 0 →
      SYSCALL_HANDLE_ERROR flag result = none ∧
      ∀ (carry : Bool) (rdi : Nat), guard_calls flag carry result rdi = some []) := by
  constructor
  · cases flag with
    | none => simp [SYSCALL_HANDLE_ERROR, error_checks_enabled]
    | some v =>
        by_cases hv : v = 0
        · subst hv; simp [SYSCALL_HANDLE_ERROR, error_checks_enabled]
        · simp [SYSCALL_HANDLE_ERROR, error_checks_enabled, hv]
  · intro v hflag hv
    subst hflag
    have hnone : SYSCALL_HANDLE_ERROR (some v) result = none := by
      simp [SYSCALL_HANDLE_ERROR, error_checks_enabled, hv]
    refine ⟨hnone, fun carry rdi => ?_⟩
    simp [guard_calls, hnone]

/-- C10, amended, at `NO_ERROR_CHECKS` defined to 1: no guard, and no call after a syscall
that failed with result 13. -/
theorem error_checks_toggle_witness :
    SYSCALL_HANDLE_ERROR (some 1) 13 = none ∧ guard_calls (some 1) true 13 0 = some [] :=
  ⟨((error_checks_toggle (some 1) 13).2 1 rfl (by decide)).1,
   ((error_checks_toggle (some 1) 13).2 1 rfl (by decide)).2 true 0⟩

end SyscallTheorems
